import Mathlib

/-!
Verification of the OpinionRadar comment-analysis core.

This file shallowly embeds the two analysis engines of the repository —
the lexicon-based sentiment scorer (`src/analyzer/sentiment_analysis.py`)
and the frequency-based text miner (`src/analyzer/text_mining.py`) — and
proves or refutes the frozen specification claims about them.

Modelling conventions:
* Python floats are modelled by `ℚ`; every numeric literal of the source
  (e.g. the intensity weight `1.5`) is an exactly representable rational,
  so no rounding behaviour is lost on the values the program manipulates.
* The external tokenizer (the `jieba` library) is out of scope per the
  spec; it is passed in as an arbitrary function `segment : String → List String`.
* A pandas cell that may fail `isinstance(text, str)` is modelled by
  `PyInput` (`nonString` covers every non-string value).
* Python `set`/`dict` literals are modelled by `List`s without duplicates;
  `dict.get(k, default)` becomes a `find?` with a default.
-/

/-- A value taken from a DataFrame text column: either a `str` or any
non-string value (`None`, `NaN`, numbers, ...), which the scorer's
`isinstance(text, str)` guard rejects. -/
inductive PyInput where
  | nonString
  | str (s : String)
deriving DecidableEq

/-- The four dictionaries held by `SentimentAnalyzer.__init__`. -/
structure Lexicon where
  positive_words : List String
  negative_words : List String
  intensity_words : List (String × ℚ)
  negation_words : List String

/-- The lexicon literally supplied in `SentimentAnalyzer.__init__`
(`src/analyzer/sentiment_analysis.py`, lines 13–36).  The Python sets list
`差劲` twice; a set keeps one copy, so the embedding lists it once.
Weights: 1.5 = 3/2, 1.3 = 13/10, 1.2 = 6/5, 1.1 = 11/10, 0.8 = 4/5. -/
def defaultLexicon : Lexicon where
  positive_words :=
    ["好", "棒", "赞", "优秀", "漂亮", "美", "可爱", "喜欢", "爱",
     "棒棒", "厉害", "强大", "精彩", "完美", "超赞", "太棒了",
     "支持", "加油", "棒棒哒", "美美哒", "喜欢喜欢", "赞赞赞"]
  negative_words :=
    ["差", "烂", "垃圾", "差劲", "恶心", "讨厌", "无聊", "难看",
     "失望", "无语", "不行", "不好", "糟糕", "差评", "差差差",
     "恶评", "太差了", "不好看", "没意思", "不喜欢"]
  intensity_words :=
    [("非常", 3/2), ("极其", 3/2), ("十分", 3/2), ("超级", 3/2), ("特别", 3/2),
     ("很", 13/10), ("挺", 6/5), ("比较", 11/10),
     ("有点", 4/5), ("稍微", 4/5), ("略微", 4/5)]
  negation_words := ["不", "没", "无", "非", "莫", "勿", "未"]

/-- `self.intensity_words.get(word, 1.0)`: dictionary lookup with default. -/
def intensityGet (tbl : List (String × ℚ)) (word : String) : ℚ :=
  match tbl.find? (fun p => p.1 == word) with
  | some p => p.2
  | none => 1

/-- The body executed in `analyze_sentence` when the current token is a
sentiment word: apply the pending negation (resetting it), then accumulate
`word_score * intensity` into the running score. -/
def applyWordScore (st : ℚ × Bool) (word_score intensity : ℚ) : ℚ × Bool :=
  if st.2 then (st.1 + -word_score * intensity, false)
  else (st.1 + word_score * intensity, st.2)

/-- One iteration of the token loop of `analyze_sentence`
(`src/analyzer/sentiment_analysis.py`, lines 49–72).  State is
`(score, negation)`.  A negation marker sets the flag and `continue`s; a
non-sentiment token falls through the `else: continue`, leaving the state
(including the pending negation flag) untouched. -/
def analyzeStep (lex : Lexicon) (st : ℚ × Bool) (word : String) : ℚ × Bool :=
  if word ∈ lex.negation_words then
    (st.1, true)
  else
    let intensity := intensityGet lex.intensity_words word
    if word ∈ lex.positive_words then
      applyWordScore st 1 intensity
    else if word ∈ lex.negative_words then
      applyWordScore st (-1) intensity
    else
      st

/-- The scoring of an already-tokenized sentence: run the loop from
`score = 0, negation = False`, then, when the token list is non-empty,
normalize with `max(-1, min(1, score / len(words)))`. -/
def analyzeWords (lex : Lexicon) (words : List String) : ℚ :=
  let final := words.foldl (analyzeStep lex) (0, false)
  if 0 < words.length then
    max (-1) (min 1 (final.1 / (words.length : ℚ)))
  else
    final.1

/-- `SentimentAnalyzer.analyze_sentence`: non-string input short-circuits to
`0`; otherwise the text is tokenized by the external tokenizer (`jieba.cut`,
modelled by the parameter `segment`) and scored by the loop. -/
def analyze_sentence (lex : Lexicon) (segment : String → List String) :
    PyInput → ℚ
  | .nonString => 0
  | .str s => analyzeWords lex (segment s)

/-- `SentimentAnalyzer.classify_sentiment`: thresholded three-way label.
The source labels are 积极 (Positive), 消极 (Negative), 中性 (Neutral);
`0.1` is the rational `1/10`. -/
def classify_sentiment (score : ℚ) : String :=
  if score > 1/10 then "积极"
  else if score < -(1/10) then "消极"
  else "中性"

theorem analyze_sentence_nonString (lex : Lexicon)
    (segment : String → List String) :
    analyze_sentence lex segment .nonString = 0 := rfl

theorem analyze_sentence_str (lex : Lexicon) (segment : String → List String)
    (s : String) :
    analyze_sentence lex segment (.str s) = analyzeWords lex (segment s) := rfl

/-- Claim C1: for every lexicon, every tokenizer behaviour and every input
(non-strings, empty strings and empty token sequences included), the score
returned by `analyze_sentence` lies in the closed interval [-1, 1]. -/
theorem C1_score_bounded (lex : Lexicon) (segment : String → List String)
    (input : PyInput) :
    -1 ≤ analyze_sentence lex segment input ∧
      analyze_sentence lex segment input ≤ 1 := by
  cases input with
  | nonString => rw [analyze_sentence_nonString]; exact ⟨by norm_num, by norm_num⟩
  | str s =>
    rw [analyze_sentence_str]
    unfold analyzeWords
    set words := segment s with hw
    by_cases h : 0 < words.length
    · rw [if_pos h]
      refine ⟨le_max_left _ _, max_le (by norm_num) (min_le_left _ _)⟩
    · rw [if_neg h]
      have hnil : words = [] :=
        List.length_eq_zero.mp (Nat.eq_zero_of_not_pos h)
      rw [hnil]
      norm_num [List.foldl]

theorem analyzeStep_marker (lex : Lexicon) (st : ℚ × Bool) (m : String)
    (hm : m ∈ lex.negation_words) : analyzeStep lex st m = (st.1, true) := by
  simp [analyzeStep, hm]

theorem foldl_neutral (lex : Lexicon) (mid : List String)
    (hmid : ∀ t ∈ mid, t ∉ lex.negation_words ∧ t ∉ lex.positive_words ∧
      t ∉ lex.negative_words)
    (st : ℚ × Bool) :
    mid.foldl (analyzeStep lex) st = st := by
  induction mid generalizing st with
  | nil => rfl
  | cons t ts ih =>
    have h := hmid t (by simp)
    have hstep : analyzeStep lex st t = st := by
      simp [analyzeStep, h.1, h.2.1, h.2.2]
    rw [List.foldl_cons, hstep]
    exact ih (fun x hx => hmid x (by simp [hx])) st

/-- Claim C2 counterexample: in the token sequence `["不", "哈哈", "好"]` the
positive word `好` sits two positions after the negation marker `不` with no
intervening marker, so by the claim it should be scored as if no marker had
occurred; replacing the marker by the neutral token `呀` (same length, so the
same normalization) shows it is not: the marker still flips `好`. -/
theorem C2_counterexample :
    analyzeWords defaultLexicon ["不", "哈哈", "好"] = -(1/3) ∧
    analyzeWords defaultLexicon ["呀", "哈哈", "好"] = 1/3 ∧
    analyzeWords defaultLexicon ["不", "哈哈", "好"] ≠
      analyzeWords defaultLexicon ["呀", "哈哈", "好"] := by
  refine ⟨?_, ?_, ?_⟩ <;>
    simp [analyzeWords, analyzeStep, applyWordScore, intensityGet,
      defaultLexicon] <;> norm_num

/-- Claim C2 amended: a negation marker sets the pending-negation state, which
persists across every following non-sentiment non-marker token and is consumed
by the next sentiment word it reaches — positive or negative — whose polarity
contribution it flips: that word contributes `-word_score * intensity` (with
`word_score = +1` for a positive word, `-1` for a negative word) instead of
`word_score * intensity`, and the flag is cleared there. -/
theorem C2_amended_negation_scope (lex : Lexicon) (score : ℚ) (neg : Bool)
    (m : String) (hm : m ∈ lex.negation_words)
    (mid : List String)
    (hmid : ∀ t ∈ mid, t ∉ lex.negation_words ∧ t ∉ lex.positive_words ∧
      t ∉ lex.negative_words)
    (w : String)
    (hw : w ∈ lex.positive_words ∨ w ∈ lex.negative_words)
    (hw' : w ∉ lex.negation_words)
    (rest : List String) :
    ((m :: mid) ++ w :: rest).foldl (analyzeStep lex) (score, neg) =
      rest.foldl (analyzeStep lex)
        (score - (if w ∈ lex.positive_words then 1 else -1) *
          intensityGet lex.intensity_words w, false) := by
  rw [List.cons_append, List.foldl_cons, analyzeStep_marker lex _ m hm,
    List.foldl_append, foldl_neutral lex mid hmid, List.foldl_cons]
  have hstep : analyzeStep lex (score, true) w =
      (score - (if w ∈ lex.positive_words then 1 else -1) *
        intensityGet lex.intensity_words w, false) := by
    by_cases hpos : w ∈ lex.positive_words
    · simp [analyzeStep, applyWordScore, hpos, hw']
      ring
    · have hneg : w ∈ lex.negative_words := hw.resolve_left hpos
      simp [analyzeStep, applyWordScore, hpos, hneg, hw']
  rw [hstep]

theorem C2_amended_negation_scope_witness :
    (("不" :: ["哈哈"]) ++ "差" :: []).foldl (analyzeStep defaultLexicon)
        (0, false) =
      [].foldl (analyzeStep defaultLexicon)
        (0 - (if "差" ∈ defaultLexicon.positive_words then 1 else -1) *
          intensityGet defaultLexicon.intensity_words "差", false) :=
  C2_amended_negation_scope defaultLexicon 0 false "不" (by decide) ["哈哈"]
    (by decide) "差" (Or.inr (by decide)) (by decide) []

/-- Claim C10 counterexample: the doubled marker run `["不", "不", "好"]` does
not yield the same score as the single marker `["不", "好"]`: the accumulated
score is `-1` in both cases, but normalization divides by the token count, so
the final scores are `-1/3` and `-1/2` respectively. -/
theorem C10_counterexample :
    analyzeWords defaultLexicon ["不", "不", "好"] = -(1/3) ∧
    analyzeWords defaultLexicon ["不", "好"] = -(1/2) ∧
    analyzeWords defaultLexicon ["不", "不", "好"] ≠
      analyzeWords defaultLexicon ["不", "好"] := by
  refine ⟨?_, ?_, ?_⟩ <;>
    simp [analyzeWords, analyzeStep, applyWordScore, intensityGet,
      defaultLexicon] <;> norm_num

/-- Claim C10 amended: at the level of the accumulated (pre-normalization)
score the claim holds — a run of extra negation markers in front of a marker
leaves the loop state exactly as the single marker does, because the pending
flag is set, never toggled, so double negation is not affirmation.  Only the
final normalization (division by the token count) distinguishes the runs. -/
theorem C10_amended_markers_idempotent (lex : Lexicon) (st : ℚ × Bool)
    (markers : List String) (hms : ∀ x ∈ markers, x ∈ lex.negation_words)
    (m : String) (hm : m ∈ lex.negation_words) (rest : List String) :
    (markers ++ m :: rest).foldl (analyzeStep lex) st =
      (m :: rest).foldl (analyzeStep lex) st := by
  induction markers generalizing st with
  | nil => rfl
  | cons x xs ih =>
    rw [List.cons_append, List.foldl_cons, analyzeStep_marker lex st x
      (hms x (by simp)),
      ih (st.1, true) (fun y hy => hms y (List.mem_cons_of_mem x hy))]
    rw [List.foldl_cons, List.foldl_cons, analyzeStep_marker lex _ m hm,
      analyzeStep_marker lex st m hm]

theorem C10_amended_markers_idempotent_witness :
    (["不", "没"] ++ "不" :: ["好"]).foldl (analyzeStep defaultLexicon)
        (0, false) =
      ("不" :: ["好"]).foldl (analyzeStep defaultLexicon) (0, false) :=
  C10_amended_markers_idempotent defaultLexicon (0, false) ["不", "没"]
    (by decide) "不" (by decide) ["好"]

/-- The supplied lexicon with every intensity weight replaced by `1.0`; the
comparison object for claim C3. -/
def unitIntensity (lex : Lexicon) : Lexicon :=
  { lex with intensity_words := lex.intensity_words.map (fun p => (p.1, 1)) }

theorem intensityGet_map_one (tbl : List (String × ℚ)) (w : String) :
    intensityGet (tbl.map (fun p => (p.1, 1))) w = 1 := by
  induction tbl with
  | nil => rfl
  | cons p ps ih =>
    simp only [List.map_cons, intensityGet, List.find?]
    cases h : p.1 == w with
    | true => rfl
    | false => simpa [intensityGet] using ih

/-- In the supplied lexicon the intensity-modifier keys are disjoint from the
positive and negative word sets, so a sentiment word always looks up the
default intensity `1.0`. -/
theorem defaultLexicon_sentiment_intensity :
    ∀ w ∈ defaultLexicon.positive_words ++ defaultLexicon.negative_words,
      intensityGet defaultLexicon.intensity_words w = 1 := by decide

theorem analyzeStep_unitIntensity (st : ℚ × Bool) (w : String) :
    analyzeStep (unitIntensity defaultLexicon) st w =
      analyzeStep defaultLexicon st w := by
  by_cases hneg : w ∈ defaultLexicon.negation_words
  · simp [analyzeStep, unitIntensity, hneg]
  · by_cases hpos : w ∈ defaultLexicon.positive_words
    · have h1 : intensityGet defaultLexicon.intensity_words w = 1 :=
        defaultLexicon_sentiment_intensity w (by simp [hpos])
      simp [analyzeStep, unitIntensity, hneg, hpos, h1, intensityGet_map_one]
    · by_cases hnegw : w ∈ defaultLexicon.negative_words
      · have h1 : intensityGet defaultLexicon.intensity_words w = 1 :=
          defaultLexicon_sentiment_intensity w (by simp [hnegw])
        simp [analyzeStep, unitIntensity, hneg, hpos, hnegw, h1,
          intensityGet_map_one]
      · simp [analyzeStep, unitIntensity, hneg, hpos, hnegw]

/-- Claim C3: under the supplied lexicon, intensity weighting is a no-op — for
every tokenizer behaviour and every input, the score computed with the
supplied intensity table equals the score computed with every intensity weight
replaced by `1.0`. -/
theorem C3_intensity_noop (segment : String → List String) (input : PyInput) :
    analyze_sentence (unitIntensity defaultLexicon) segment input =
      analyze_sentence defaultLexicon segment input := by
  cases input with
  | nonString => rfl
  | str s =>
    rw [analyze_sentence_str, analyze_sentence_str]
    unfold analyzeWords
    have hfold : ∀ (ws : List String) (st : ℚ × Bool),
        ws.foldl (analyzeStep (unitIntensity defaultLexicon)) st =
          ws.foldl (analyzeStep defaultLexicon) st := by
      intro ws
      induction ws with
      | nil => intro st; rfl
      | cons a l ih =>
        intro st
        rw [List.foldl_cons, List.foldl_cons, analyzeStep_unitIntensity]
        exact ih _
    rw [hfold]

/-- Claim C4: classification returns 积极 (Positive) iff the score exceeds
`0.1`, 消极 (Negative) iff it is below `-0.1`, and 中性 (Neutral) otherwise;
in particular the scores `0.1` and `-0.1` classify as Neutral while `0.10001`
classifies as Positive and `-0.10001` as Negative. -/
theorem C4_classification (s : ℚ) :
    (classify_sentiment s = "积极" ↔ 1/10 < s) ∧
    (classify_sentiment s = "消极" ↔ s < -(1/10)) ∧
    (classify_sentiment s = "中性" ↔ ¬ 1/10 < s ∧ ¬ s < -(1/10)) ∧
    classify_sentiment (1/10) = "中性" ∧
    classify_sentiment (10001/100000) = "积极" ∧
    classify_sentiment (-(1/10)) = "中性" ∧
    classify_sentiment (-(10001/100000)) = "消极" := by
  refine ⟨?_, ?_, ?_, ?_, ?_, ?_, ?_⟩
  · unfold classify_sentiment
    split_ifs with h1 h2 <;> simp_all
  · unfold classify_sentiment
    split_ifs with h1 h2 <;> simp_all
    linarith
  · unfold classify_sentiment
    split_ifs with h1 h2 <;> simp_all
  · norm_num [classify_sentiment]
  · norm_num [classify_sentiment]
  · norm_num [classify_sentiment]
  · norm_num [classify_sentiment]

/-!
Text miner (`src/analyzer/text_mining.py`).

The tokenizer (`jieba.cut`) stays the abstract parameter `segment`.  A
DataFrame text column is modelled as `List (Option String)`: `none` is a
missing value (`NaN`), which `dropna()` removes and which
`str.contains(..., na=False)` treats as a non-match; `some s` is the cell's
text (after pandas' `astype(str)` / `str(text)` coercion, every retained
cell is a string).
-/

/-- Python exception value raised by evaluating an unbound name. -/
inductive PyError where
  | nameError (name : String)
deriving DecidableEq

/-- The `base_stopwords` set literal of `TextMiner.load_stopwords`
(`src/analyzer/text_mining.py`).  The Python set lists `也` twice; a set
keeps one copy. -/
def base_stopwords : List String :=
  ["的", "了", "在", "是", "我", "有", "和", "就",
   "不", "人", "都", "一", "一个", "上", "也", "很",
   "到", "说", "要", "去", "你", "会", "着", "没有",
   "看", "好", "自己", "这", "这个"]

/-- `TextMiner.load_stopwords` (`src/analyzer/text_mining.py`, lines 23–48).
The module imports `pandas`, `jieba`, `jieba.analyse`, `Counter` and `re`
but never `os`, while the function's guard reads
`if filepath and os.path.exists(filepath):`.  Python evaluates the guard
left to right: a falsy `filepath` (`None` or `""`) short-circuits and the
base set is returned, but any truthy `filepath` forces evaluation of the
unbound name `os`, raising `NameError` — and the guard sits *outside* the
`try/except` that was meant to absorb file errors, so the error escapes
and aborts construction. -/
def load_stopwords (filepath : Option String) : Except PyError (List String) :=
  let stopwords := base_stopwords
  match filepath with
  | none => .ok stopwords
  | some p => if p.isEmpty then .ok stopwords else .error (.nameError "os")

/-- Python `str.isdigit()`: non-empty and every character a digit (the model
uses the decimal digits `0`–`9`; the repository's tokens contain no other
Unicode digit forms). -/
def pyIsdigit (s : String) : Bool :=
  !s.isEmpty && s.toList.all Char.isDigit

/-- A character kept by `clean_text`'s regex `[^\w一-鿿\s]` deletion:
word characters (modelled as ASCII alphanumerics plus `_`; CJK ideographs are
covered by the explicit range), the CJK range `一`–`鿿`, and
whitespace. -/
def keptChar (c : Char) : Bool :=
  c.isAlphanum || c == '_' || (0x4e00 ≤ c.toNat && c.toNat ≤ 0x9fff) ||
    c.isWhitespace

/-- Python `str.strip()`: drop whitespace from both ends. -/
def pyStrip (s : String) : String :=
  String.mk
    (((s.toList.dropWhile Char.isWhitespace).reverse.dropWhile
      Char.isWhitespace).reverse)

/-- Split a character list at whitespace characters (every maximal run of
non-whitespace characters becomes a chunk; adjacent or leading/trailing
whitespace produces empty chunks, which the caller discards). -/
def splitOnWs : List Char → List (List Char)
  | [] => [[]]
  | c :: cs =>
    match splitOnWs cs, c.isWhitespace with
    | r, true => [] :: r
    | [], false => [[c]]
    | t :: r, false => (c :: t) :: r

/-- `TextMiner.clean_text`: non-strings map to `""`; otherwise delete the
characters outside `keptChar`, collapse whitespace runs to single spaces and
strip the ends (splitting on whitespace, discarding empty chunks and
rejoining with single spaces implements `re.sub(r'\s+', ' ', text).strip()`
on the filtered text). -/
def clean_text : PyInput → String
  | .nonString => ""
  | .str s =>
    let filtered := s.toList.filter keptChar
    String.intercalate " "
      (((splitOnWs filtered).map String.mk).filter (fun t => !t.isEmpty))

/-- The token filter inside the mining loop: strip the token, then keep it
iff it has at least 2 characters, is not a stopword and is not all digits. -/
def retainToken (stopwords : List String) (word : String) : Option String :=
  if 2 ≤ (pyStrip word).length ∧ (pyStrip word) ∉ stopwords ∧
      ¬ pyIsdigit (pyStrip word) then some (pyStrip word)
  else none

/-- The `words` list built by `TextMiner.analyze_comments`: tokenize each
non-missing comment in corpus order and keep the retained tokens. -/
def mineWords (segment : String → List String) (stopwords : List String)
    (contents : List (Option String)) : List String :=
  ((contents.filterMap id).map
    (fun text => (segment text).filterMap (retainToken stopwords))).flatten

/-- Distinct elements in first-seen order: the key order of a Python
`Counter` (a `dict` keyed by insertion order). -/
def firstSeen : List String → List String
  | [] => []
  | x :: xs => x :: (firstSeen xs).filter (fun y => y ≠ x)

/-- `Counter(words)` as an association list: each distinct word (first-seen
order) with its number of occurrences. -/
def countsList (ws : List String) : List (String × Nat) :=
  (firstSeen ws).map (fun w => (w, ws.count w))

/-- Stable insertion for the descending-by-count sort: an element moves past
exactly the entries with a strictly smaller count, so ties keep their
original (first-seen) order. -/
def insertByCountDesc (x : String × Nat) :
    List (String × Nat) → List (String × Nat)
  | [] => [x]
  | y :: ys => if y.2 < x.2 then x :: y :: ys else y :: insertByCountDesc x ys

/-- Stable sort by count descending, the order produced by
`Counter.most_common` (and by pandas `value_counts`). -/
def sortByCountDesc : List (String × Nat) → List (String × Nat)
  | [] => []
  | x :: xs => insertByCountDesc x (sortByCountDesc xs)

/-- `Counter.most_common(n)`: the `n` largest counts, ties by first-seen
order. -/
def most_common (counts : List (String × Nat)) (n : Nat) :
    List (String × Nat) :=
  (sortByCountDesc counts).take n

/-- The result dictionary of `TextMiner.analyze_comments`. -/
structure MiningResult where
  top_words : List (String × Nat)
  total_words : Nat
  unique_words : Nat
  all_word_counts : List (String × Nat)
deriving DecidableEq

/-- `TextMiner.analyze_comments` (`src/analyzer/text_mining.py`, lines
77–121); named `miner_analyze_comments` to keep it apart from the sentiment
scorer's method of the same name.  The joined corpus text is cleaned first;
an empty cleaning result short-circuits to the empty dictionary `{}`
(modelled as `none`). -/
def miner_analyze_comments (segment : String → List String)
    (stopwords : List String) (contents : List (Option String))
    (top_n : Nat) : Option MiningResult :=
  let all_text := String.intercalate " " (contents.filterMap id)
  let cleaned_text := clean_text (.str all_text)
  if cleaned_text.isEmpty then none
  else
    let words := mineWords segment stopwords contents
    let word_counts := countsList words
    some
      { top_words := most_common word_counts top_n
        total_words := words.length
        unique_words := word_counts.length
        all_word_counts := word_counts }

/-- One element of the `hot_topics` list of `TextMiner.find_hot_topics`. -/
structure HotTopic where
  keyword : String
  occurrence_count : Nat
  related_comment_count : Nat
  sample_comments : List String
deriving DecidableEq

/-- Whether `pat` occurs at the start of `cs`. -/
def startsWithChars : List Char → List Char → Bool
  | [], _ => true
  | _ :: _, [] => false
  | p :: ps, c :: cs => p == c && startsWithChars ps cs

/-- Whether `pat` occurs anywhere in the character list. -/
def containsChars (pat : List Char) : List Char → Bool
  | [] => startsWithChars pat []
  | c :: cs => startsWithChars pat (c :: cs) || containsChars pat cs

/-- Plain substring containment, the effect of
`Series.str.contains(word, na=False)` on the tokens this program produces
(they contain no regex metacharacters, so the default regex interpretation
coincides with substring search; the spec describes it as a simple substring
test over the uncleaned text). -/
def strContains (s pattern : String) : Bool :=
  containsChars pattern.toList s.toList

/-- Row predicate of `df[df[text_column].str.contains(word, na=False)]`:
missing cells (`na=False`) never match. -/
def matchesKeyword (keyword : String) : Option String → Bool
  | none => false
  | some s => strContains s keyword

/-- The topic dictionary built for one `(word, count)` pair:
`related_comments` are the rows whose raw text contains the word, counted in
full; `sample_comments` are the texts of the first 3 of those rows
(`related_comments.head(3)[text_column].tolist()`). -/
def mkHotTopic (contents : List (Option String)) (wc : String × Nat) :
    HotTopic :=
  let related_comments := contents.filter (matchesKeyword wc.1)
  { keyword := wc.1
    occurrence_count := wc.2
    related_comment_count := related_comments.length
    sample_comments := (related_comments.take 3).filterMap id }

/-- `TextMiner.find_hot_topics` (`src/analyzer/text_mining.py`, lines
138–160): mine with `top_n = 50`, return a topic for every top word whose
count reaches `min_count`, in ranking order. -/
def find_hot_topics (segment : String → List String)
    (stopwords : List String) (contents : List (Option String))
    (min_count : Nat) : List HotTopic :=
  match miner_analyze_comments segment stopwords contents 50 with
  | none => []
  | some r =>
    (r.top_words.filter (fun wc => min_count ≤ wc.2)).map (mkHotTopic contents)

/-- Claim C5 (refuted by the code, which contradicts its own fallback
handler): passing any non-empty stopword-file path makes `TextMiner`
construction raise `NameError: name 'os' is not defined`, instead of falling
back to the base set with a warning; only an absent (or empty, hence falsy)
path avoids the crash and returns the base stopwords. -/
theorem C5_missing_os_import :
    load_stopwords (some "stopwords.txt") = .error (.nameError "os") ∧
    load_stopwords none = .ok base_stopwords ∧
    load_stopwords (some "") = .ok base_stopwords := by
  refine ⟨?_, rfl, ?_⟩ <;> rfl

/-- The sentiment scorer's view of the comment table: the text column plus
the two columns `analyze_comments` writes (`情感分数` and `情感分类`),
`none` when the column does not exist. -/
structure DataFrame where
  contents : List PyInput
  sentiment_scores : Option (List ℚ)
  sentiment_labels : Option (List String)
deriving DecidableEq

/-- `Series.value_counts()`: distinct values with their multiplicities,
sorted by count descending. -/
def value_counts (labels : List String) : List (String × Nat) :=
  sortByCountDesc (countsList labels)

/-- `SentimentAnalyzer.analyze_comments` (`src/analyzer/sentiment_analysis.py`,
lines 80–98).  The two column assignments
`df['情感分数'] = df[text_column].apply(self.analyze_sentence)` and
`df['情感分类'] = df['情感分数'].apply(self.classify_sentiment)` mutate the
DataFrame object the caller passed in, and `return df` returns that same
object: the first component below is simultaneously the post-call state of
the caller's DataFrame and the returned one. -/
def analyze_comments (lex : Lexicon) (segment : String → List String)
    (df : DataFrame) : DataFrame × List (String × Nat) :=
  let scores := df.contents.map (analyze_sentence lex segment)
  let labels := scores.map classify_sentiment
  let df' : DataFrame :=
    { df with sentiment_scores := some scores, sentiment_labels := some labels }
  (df', value_counts labels)

/-- Claim C6 counterexample: a one-comment DataFrame without sentiment
columns.  After `analyze_comments` the caller's DataFrame (the first
component, which the in-place column assignments make identical with the
returned one) is not the DataFrame that was passed in: the call attached the
two sentiment columns to it. -/
theorem C6_counterexample :
    (analyze_comments defaultLexicon (fun x => [x])
        (DataFrame.mk [.str "很好"] none none)).1 ≠
      DataFrame.mk [.str "很好"] none none := by
  intro h
  have := congrArg DataFrame.sentiment_scores h
  simp [analyze_comments] at this

/-- Claim C6 amended: `analyze_comments` enriches the caller's collection in
place — after the call the input DataFrame (equal to the returned one) still
holds the original text column and now carries the sentiment-score and
sentiment-label columns computed from it. -/
theorem C6_amended_in_place_enrichment (lex : Lexicon)
    (segment : String → List String) (df : DataFrame) :
    (analyze_comments lex segment df).1.contents = df.contents ∧
    (analyze_comments lex segment df).1.sentiment_scores =
      some (df.contents.map (analyze_sentence lex segment)) ∧
    (analyze_comments lex segment df).1.sentiment_labels =
      some ((df.contents.map (analyze_sentence lex segment)).map
        classify_sentiment) :=
  ⟨rfl, rfl, rfl⟩


theorem firstSeen_nodup (ws : List String) : (firstSeen ws).Nodup := by
  induction ws with
  | nil => exact List.nodup_nil
  | cons x xs ih =>
    rw [firstSeen]
    refine List.Nodup.cons ?_ (List.Nodup.filter _ ih)
    intro hx
    have := List.of_mem_filter hx
    simp at this

theorem mem_firstSeen (y : String) (ws : List String) :
    y ∈ firstSeen ws ↔ y ∈ ws := by
  induction ws with
  | nil => simp [firstSeen]
  | cons x xs ih =>
    rw [firstSeen]
    by_cases hyx : y = x
    · simp [hyx]
    · simp [List.mem_filter, hyx, ih]

theorem sum_countsList (ws : List String) :
    ((countsList ws).map Prod.snd).sum = ws.length := by
  have hperm : (firstSeen ws).Perm ws.dedup :=
    List.perm_of_nodup_nodup_toFinset_eq (firstSeen_nodup ws)
      (List.nodup_dedup ws)
      (List.toFinset.ext (fun x => by rw [mem_firstSeen, List.mem_dedup]))
  calc ((countsList ws).map Prod.snd).sum
      = ((firstSeen ws).map (fun w => ws.count w)).sum := by
        simp [countsList, List.map_map, Function.comp_def]
    _ = ((ws.dedup).map (fun w => ws.count w)).sum :=
        (hperm.map (fun w => ws.count w)).sum_eq
    _ = ws.length := List.sum_map_count_dedup_eq_length ws

theorem retainToken_some (stopwords : List String) (t w : String)
    (h : retainToken stopwords t = some w) :
    2 ≤ w.length ∧ w ∉ stopwords ∧ pyIsdigit w = false := by
  unfold retainToken at h
  split at h
  · next hcond =>
    cases h
    exact ⟨hcond.1, hcond.2.1, by simpa using hcond.2.2⟩
  · exact absurd h (by simp)

theorem mem_mineWords (segment : String → List String)
    (stopwords : List String) (contents : List (Option String)) (w : String)
    (h : w ∈ mineWords segment stopwords contents) :
    2 ≤ w.length ∧ w ∉ stopwords ∧ pyIsdigit w = false := by
  unfold mineWords at h
  rw [List.mem_flatten] at h
  obtain ⟨l, hl, hw⟩ := h
  rw [List.mem_map] at hl
  obtain ⟨text, -, rfl⟩ := hl
  rw [List.mem_filterMap] at hw
  obtain ⟨t, -, ht⟩ := hw
  exact retainToken_some stopwords t w ht

theorem miner_some (segment : String → List String)
    (stopwords : List String) (contents : List (Option String)) (n : Nat)
    (r : MiningResult)
    (h : miner_analyze_comments segment stopwords contents n = some r) :
    r = { top_words :=
            most_common (countsList (mineWords segment stopwords contents)) n
          total_words := (mineWords segment stopwords contents).length
          unique_words :=
            (countsList (mineWords segment stopwords contents)).length
          all_word_counts :=
            countsList (mineWords segment stopwords contents) } := by
  unfold miner_analyze_comments at h
  by_cases hempty : (clean_text (.str (String.intercalate " "
      (contents.filterMap id)))).isEmpty
  · simp [hempty] at h
  · simp only [hempty, if_false, Bool.false_eq_true, Option.some.injEq] at h
    exact h.symm

/-- Claim C8: whenever mining returns a result, the `top_words` list has at
most `top_n` entries and the counts in `all_word_counts` sum to
`total_words`. -/
theorem C8_mine_shape (segment : String → List String)
    (stopwords : List String) (contents : List (Option String)) (n : Nat)
    (r : MiningResult)
    (h : miner_analyze_comments segment stopwords contents n = some r) :
    r.top_words.length ≤ n ∧
      (r.all_word_counts.map Prod.snd).sum = r.total_words := by
  rw [miner_some segment stopwords contents n r h]
  exact ⟨List.length_take_le _ _, sum_countsList _⟩

theorem C8_mine_shape_witness :
    (MiningResult.mk [("aa", 2)] 2 1 [("aa", 2)]).top_words.length ≤ 5 ∧
      ((MiningResult.mk [("aa", 2)] 2 1 [("aa", 2)]).all_word_counts.map
        Prod.snd).sum =
        (MiningResult.mk [("aa", 2)] 2 1 [("aa", 2)]).total_words :=
  C8_mine_shape (fun _ => ["aa", "aa"]) [] [some "aa aa"] 5
    (MiningResult.mk [("aa", 2)] 2 1 [("aa", 2)]) (by decide)

/-- Claim C9: whenever mining returns a result, every key of
`all_word_counts` is a retained token — at least 2 characters, not a
stopword, not all digits — and its stored count is strictly positive. -/
theorem C9_frequency_table_keys (segment : String → List String)
    (stopwords : List String) (contents : List (Option String)) (n : Nat)
    (r : MiningResult)
    (h : miner_analyze_comments segment stopwords contents n = some r)
    (w : String) (c : Nat) (hmem : (w, c) ∈ r.all_word_counts) :
    2 ≤ w.length ∧ w ∉ stopwords ∧ pyIsdigit w = false ∧ 0 < c := by
  rw [miner_some segment stopwords contents n r h] at hmem
  simp only [countsList, List.mem_map] at hmem
  obtain ⟨x, hx, hxw⟩ := hmem
  rw [Prod.mk.injEq] at hxw
  obtain ⟨h1eq, h2eq⟩ := hxw
  have hmemw : w ∈ mineWords segment stopwords contents := by
    rw [← h1eq]
    exact (mem_firstSeen x _).mp hx
  obtain ⟨ha, hb, hc⟩ := mem_mineWords segment stopwords contents w hmemw
  refine ⟨ha, hb, hc, ?_⟩
  rw [← h2eq, h1eq]
  exact List.count_pos_iff.mpr hmemw

theorem C9_frequency_table_keys_witness :
    2 ≤ "aa".length ∧ "aa" ∉ ([] : List String) ∧ pyIsdigit "aa" = false ∧
      0 < 2 :=
  C9_frequency_table_keys (fun _ => ["aa", "aa"]) [] [some "aa aa"] 5
    (MiningResult.mk [("aa", 2)] 2 1 [("aa", 2)]) (by decide) "aa" 2
    (by decide)

/-- Claim C7: every topic returned by `find_hot_topics` with `min_count = k`
has `occurrence_count ≥ k`; its `related_comment_count` is the number of
comments whose raw text contains the keyword as a substring; and its
`sample_comments` are the texts of the first at most 3 matching comments in
original corpus order. -/
theorem C7_hot_topics (segment : String → List String)
    (stopwords : List String) (contents : List (Option String)) (k : Nat)
    (t : HotTopic) (ht : t ∈ find_hot_topics segment stopwords contents k) :
    k ≤ t.occurrence_count ∧
      t.related_comment_count =
        (contents.filter (matchesKeyword t.keyword)).length ∧
      t.sample_comments =
        ((contents.filter (matchesKeyword t.keyword)).take 3).filterMap id ∧
      t.sample_comments.length ≤ 3 := by
  unfold find_hot_topics at ht
  split at ht
  · exact absurd ht (by simp)
  · rw [List.mem_map] at ht
    obtain ⟨wc, hwc, rfl⟩ := ht
    rw [List.mem_filter] at hwc
    have hk : k ≤ wc.2 := by simpa using hwc.2
    refine ⟨hk, rfl, rfl, ?_⟩
    exact le_trans (List.length_filterMap_le _ _) (List.length_take_le _ _)

theorem C7_hot_topics_witness :
    1 ≤ (HotTopic.mk "aa" 2 1 ["aa aa"]).occurrence_count ∧
      (HotTopic.mk "aa" 2 1 ["aa aa"]).related_comment_count =
        ([some "aa aa"].filter
          (matchesKeyword (HotTopic.mk "aa" 2 1 ["aa aa"]).keyword)).length ∧
      (HotTopic.mk "aa" 2 1 ["aa aa"]).sample_comments =
        (([some "aa aa"].filter
          (matchesKeyword
            (HotTopic.mk "aa" 2 1 ["aa aa"]).keyword)).take 3).filterMap id ∧
      (HotTopic.mk "aa" 2 1 ["aa aa"]).sample_comments.length ≤ 3 :=
  C7_hot_topics (fun _ => ["aa", "aa"]) [] [some "aa aa"] 1
    (HotTopic.mk "aa" 2 1 ["aa aa"]) (by decide)
